import Mathlib

/-!
Verification development for the goods-sort puzzle prototype.

Shallow embedding of the rules engine: products, shelves (base and the
closing / display / deep / supply / locking / disappearing variants), the
level-wide placement resolution and statistics, and the locking-condition
evaluator.  Pure data is translated field by field from the TypeScript
classes; mutating methods become functions returning the updated record
(paired with the method's return value where the source returns one);
rendering, input polling and camera state (external collaborators) are not
modelled.  JS numbers that hold times/positions are embedded as ℚ;
capacities and counters as ℕ.  A JS expression that would throw is
embedded in `Except String`.
-/

namespace GoodsSort

/-- Two-component vector of rationals (the `vec2` type from
`@basementuniverse/vec`, restricted to the exact arithmetic the placement
logic performs on it). -/
structure Vec2 where
  x : ℚ
  y : ℚ
deriving DecidableEq, Repr

/-- Axis-aligned bounding box, as used by `getAABB` in the source. -/
structure AABB where
  position : Vec2
  size : Vec2
deriving DecidableEq, Repr

/-- Source `Product` (src/src/GameScene.ts, class `Product`): identity/matching
data plus the disappearing-animation state machine.  `uid` stands for JS
object identity (distinct objects have distinct `uid`s); position, drag and
rotation animation state is external-collaborator state and is omitted.
The source field `matches` is embedded as `matchIds` because `matches` is a
Lean keyword. -/
structure Product where
  uid : Nat
  id : String
  pname : String
  matchIds : List String
  points : Int
  locked : Bool
  disappearing : Bool
  startedDisappearing : Bool
  finishedDisappearing : Bool
  disappearingTime : ℚ
  disappearingDelay : ℚ
deriving DecidableEq, Repr

/-- Source `Product.DISAPPEARING_ANIMATION_TIME` (0.5 seconds). -/
def DISAPPEARING_ANIMATION_TIME : ℚ := 0.5

/-- Source `Product.matchesProduct(other)`: `this.matches.includes(other.id)`.
Note the direction: only `p`'s own `matches` list is consulted. -/
def Product.matchesProduct (p other : Product) : Bool :=
  p.matchIds.contains other.id

/-- Source `Product.disappear(delay = 0)` (src/src/GameScene.ts lines 343-352):
a no-op when the product is already disappearing, otherwise arms the
disappearing animation. -/
def Product.disappear (p : Product) (delay : ℚ) : Product :=
  if p.disappearing then
    p
  else
    { p with
      disappearing := true
      startedDisappearing := false
      finishedDisappearing := false
      disappearingTime := DISAPPEARING_ANIMATION_TIME
      disappearingDelay := delay }

/-- Source `clamp(value, min, max)` from `@basementuniverse/utils`. -/
def clamp (value lo hi : ℚ) : ℚ := min (max value lo) hi

/-- The disappearing-animation portion of `Product.update`
(src/src/GameScene.ts lines 288-304): the delay counts down, then the
animation timer counts down, then the finished flag latches.  (The rest of
`Product.update` manipulates position/rotation/drag state, which is not
modelled.)  `clamp(x, 0, Infinity)` is `max x 0`. -/
def Product.updateDisappearing (dt : ℚ) (p : Product) : Product :=
  if p.disappearing then
    let delay := max (p.disappearingDelay - dt) 0
    let started := if !p.startedDisappearing && decide (delay ≤ 0) then true
      else p.startedDisappearing
    let time := if started then
        clamp (p.disappearingTime - dt) 0 DISAPPEARING_ANIMATION_TIME
      else p.disappearingTime
    let finished := if time ≤ 0 then true else p.finishedDisappearing
    { p with
      disappearingDelay := delay
      startedDisappearing := started
      disappearingTime := time
      finishedDisappearing := finished }
  else
    p

/-- Source `Shelf.DEFAULT_SLOT_COUNT` (src/src/actors, class `Shelf`). -/
def DEFAULT_SLOT_COUNT : Nat := 3

/-- Source `Shelf.DEFAULT_MATCH_COUNT`. -/
def DEFAULT_MATCH_COUNT : Nat := 3

/-- Source `Shelf.DISAPPEAR_DELAY` (0.2 seconds per matched-product index). -/
def DISAPPEAR_DELAY : ℚ := 0.2

/-- The base `Shelf` class (class `Shelf` in the actors module): a slot
array of optional products plus configuration.  `none` in a slot is the
source's `null`.  `dropBlocked` models the capability patch installed by a
wrapping `SupplyShelf` (always `true`) or `LockingShelf` (`true` while the
wrapper is locked), which replaces `canDropProductAtIndex` with a gated
version; `findDisabled` models the wrapper variants' own `findShelfSlot`
override that always reports `{ valid: false }`.  For a plain shelf both
flags are `false`. -/
structure Shelf where
  products : List (Option Product)
  slotCount : Nat
  matchCount : Nat
  ignore : Bool
  reference : Option String
  position : Vec2
  statsUpdated : Bool
  dropBlocked : Bool
  findDisabled : Bool
deriving DecidableEq, Repr

/-- Source `Shelf.shelfIsEmpty()`: every slot is `null`. -/
def Shelf.shelfIsEmpty (s : Shelf) : Bool :=
  s.products.all (fun product => product == none)

/-- Base `Shelf.shelfIsComplete()`: the shelf is empty. -/
def Shelf.shelfIsComplete (s : Shelf) : Bool :=
  s.shelfIsEmpty

/-- Source `Shelf.canDropProductAtIndex(product, index)`: the index must be in
range and the slot unoccupied (`products[index] === null`); the wrapper
patch (`dropBlocked`) short-circuits to `false`.  `products.get? i = some
none` holds exactly when the JS read `products[index]` yields `null`. -/
def Shelf.canDropProductAtIndex (s : Shelf) (_product : Product) (index : Int) : Bool :=
  if s.dropBlocked then false
  else if index < 0 || s.slotCount ≤ index then false
  else if s.products.get? index.toNat != some none then false
  else true

/-- Source `Shelf.canPickUpProductAtIndex(product, index)`: in range and the slot
holds a product. -/
def Shelf.canPickUpProductAtIndex (s : Shelf) (_product : Product) (index : Int) : Bool :=
  if index < 0 || s.slotCount ≤ index then false
  else if s.products.get? index.toNat == some none then false
  else true

/-- Source `Shelf.addProductAtIndex(index, product)` (src/src/actors/ClosingShelf.ts
lines 420-430): guard the index range, guard occupancy, then store the
product and clear `statsUpdated`.  Returns the source's boolean paired with
the updated shelf.  In the mutating branch the occupancy guard guarantees
`index.toNat < products.length`, where `List.set` agrees with the JS element
assignment. -/
def Shelf.addProductAtIndex (s : Shelf) (index : Int) (product : Product) :
    Bool × Shelf :=
  if index < 0 || s.slotCount ≤ index then (false, s)
  else if s.products.get? index.toNat != some none then (false, s)
  else (true,
    { s with
      products := s.products.set index.toNat (some product)
      statsUpdated := false })

/-- Source `Shelf.removeProductAtIndex(index)` (lines 432-440): guard the index
range, read the slot, null it, clear `statsUpdated`.  Returns the removed
product (or `none` for `null`/out-of-list reads) with the updated shelf. -/
def Shelf.removeProductAtIndex (s : Shelf) (index : Int) :
    Option Product × Shelf :=
  if index < 0 || s.slotCount ≤ index then (none, s)
  else ((s.products.get? index.toNat).join,
    { s with
      products := s.products.set index.toNat none
      statsUpdated := false })

/-- Source `Shelf.lockProductAtIndex(index, locked = true)` (lines 442-455):
`null` on an out-of-range index or an empty slot, otherwise sets the
product's `locked` flag and returns it. -/
def Shelf.lockProductAtIndex (s : Shelf) (index : Int) (locked : Bool) :
    Option Bool × Shelf :=
  if index < 0 || s.slotCount ≤ index then (none, s)
  else
    match (s.products.get? index.toNat).join with
    | none => (none, s)
    | some product => (some locked,
        { s with
          products := s.products.set index.toNat (some { product with locked := locked }) })

/-!  The matching algorithm (`Shelf.checkForMatches` /
`findMatchingGroups` / `growMatchingGroup`, src/src/actors/ClosingShelf.ts
lines 345-404).  The source's `growMatchingGroup` recursion stops as soon
as `currentGroup.length >= matchCount`, so each call site performs exactly
`matchCount - currentGroup.length` growth steps (or fewer when no candidate
qualifies); the embedding makes that quantity the structural recursion
argument. -/

/-- One growth pass of `growMatchingGroup`: with `remaining` growth steps
left, filter the available products down to those not already in the group
that match every current member, and append the first. -/
def Shelf.growMatchingGroupAux (availableProducts : List Product) :
    Nat → List Product → List Product
  | 0, currentGroup => currentGroup
  | remaining + 1, currentGroup =>
    let matchingProducts := availableProducts.filter (fun product =>
      !currentGroup.contains product &&
        currentGroup.all (fun groupProduct => product.matchesProduct groupProduct))
    match matchingProducts with
    | [] => currentGroup
    | m :: _ => Shelf.growMatchingGroupAux availableProducts remaining (currentGroup ++ [m])

/-- Source `Shelf.growMatchingGroup(currentGroup, availableProducts)`. -/
def Shelf.growMatchingGroup (matchCount : Nat) (currentGroup availableProducts : List Product) :
    List Product :=
  Shelf.growMatchingGroupAux availableProducts (matchCount - currentGroup.length) currentGroup

/-- Source `Shelf.findMatchingGroups(products)`: each product seeds a grown group;
groups that reach `matchCount` are truncated to `matchCount` and collected
in seed order (the source's push loop is this `filterMap`). -/
def Shelf.findMatchingGroups (matchCount : Nat) (products : List Product) :
    List (List Product) :=
  products.filterMap (fun startProduct =>
    let group := Shelf.growMatchingGroup matchCount [startProduct] products
    if matchCount ≤ group.length then some (group.take matchCount) else none)

/-- The products `Shelf.checkForMatches` considers: non-`null` slots whose
product is not disappearing, in slot order. -/
def Shelf.validProducts (products : List (Option Product)) : List Product :=
  (products.filterMap id).filter (fun product => !product.disappearing)

/-- Source `Shelf.checkForMatches()`: `found` is whether any group was collected
and `matches` is the first one; both are packaged as an `Option`
(`some group` ↔ `found = true` with `matches = group`). -/
def Shelf.checkForMatches (matchCount : Nat) (products : List (Option Product)) :
    Option (List Product) :=
  (Shelf.findMatchingGroups matchCount (Shelf.validProducts products)).head?

theorem growMatchingGroupAux_subset (availableProducts : List Product) :
    ∀ (remaining : Nat) (currentGroup : List Product) (x : Product),
      x ∈ Shelf.growMatchingGroupAux availableProducts remaining currentGroup →
      x ∈ currentGroup ∨ x ∈ availableProducts := by
  intro remaining
  induction remaining with
  | zero => intro g x hx; exact Or.inl hx
  | succ r ih =>
    intro g x hx
    simp only [Shelf.growMatchingGroupAux] at hx
    split at hx
    · exact Or.inl hx
    · rename_i m tail heq
      rcases ih (g ++ [m]) x hx with hmem | hmem
      · rcases List.mem_append.1 hmem with hg | hm
        · exact Or.inl hg
        · right
          have : m ∈ availableProducts.filter (fun product =>
              !g.contains product &&
                g.all (fun groupProduct => product.matchesProduct groupProduct)) := by
            rw [heq]; exact List.mem_cons_self _ _
          rw [List.mem_singleton] at hm
          exact hm ▸ (List.mem_filter.1 this).1
      · exact Or.inr hmem

theorem growMatchingGroupAux_pairwise (availableProducts : List Product) :
    ∀ (remaining : Nat) (currentGroup : List Product),
      currentGroup.Pairwise (fun a b => b.matchesProduct a = true) →
      (Shelf.growMatchingGroupAux availableProducts remaining currentGroup).Pairwise
        (fun a b => b.matchesProduct a = true) := by
  intro remaining
  induction remaining with
  | zero => intro g hg; exact hg
  | succ r ih =>
    intro g hg
    simp only [Shelf.growMatchingGroupAux]
    split
    · exact hg
    · rename_i m tail heq
      apply ih
      have hmf : m ∈ availableProducts.filter (fun product =>
          !g.contains product &&
            g.all (fun groupProduct => product.matchesProduct groupProduct)) := by
        rw [heq]; exact List.mem_cons_self _ _
      have hpred := (List.mem_filter.1 hmf).2
      rw [Bool.and_eq_true] at hpred
      have hall := List.all_eq_true.1 hpred.2
      rw [List.pairwise_append]
      refine ⟨hg, List.pairwise_singleton _ _, ?_⟩
      intro a ha b hb
      rw [List.mem_singleton] at hb
      exact hb ▸ hall a ha

theorem validProducts_mem (products : List (Option Product)) (x : Product) :
    x ∈ Shelf.validProducts products ↔ some x ∈ products ∧ x.disappearing = false := by
  unfold Shelf.validProducts
  rw [List.mem_filter, List.mem_filterMap]
  simp only [id_eq, Bool.not_eq_true']
  constructor
  · rintro ⟨⟨a, ha, rfl⟩, hd⟩; exact ⟨ha, hd⟩
  · rintro ⟨ha, hd⟩; exact ⟨⟨some x, ha, rfl⟩, hd⟩

/-- Claim C1 (amended): when `Shelf.checkForMatches` reports a match, the
returned group has length exactly `matchCount`, its members are drawn from
the shelf's current non-empty, non-disappearing products, and every member
of the group matches every member that precedes it in the group — the code
checks the match relation only in the direction from the newly added
candidate towards the accumulated group, so mutual ("every pairwise
combination") matching holds only when the authored `matches` data is
symmetric. -/
theorem checkForMatches_group_spec (matchCount : Nat) (products : List (Option Product))
    (g : List Product) (h : Shelf.checkForMatches matchCount products = some g) :
    g.length = matchCount ∧
    (∀ p ∈ g, some p ∈ products ∧ p.disappearing = false) ∧
    g.Pairwise (fun a b => b.matchesProduct a = true) := by
  unfold Shelf.checkForMatches at h
  have hg : g ∈ Shelf.findMatchingGroups matchCount (Shelf.validProducts products) := by
    cases hl : Shelf.findMatchingGroups matchCount (Shelf.validProducts products) with
    | nil => rw [hl] at h; simp at h
    | cons a t =>
      rw [hl] at h
      simp only [List.head?] at h
      rw [Option.some_inj] at h
      exact h ▸ List.mem_cons_self _ _
  unfold Shelf.findMatchingGroups at hg
  rw [List.mem_filterMap] at hg
  obtain ⟨seed, hseed, heq⟩ := hg
  simp only [] at heq
  split at heq
  · rename_i hlen
    rw [Option.some_inj] at heq
    subst heq
    refine ⟨?_, ?_, ?_⟩
    · rw [List.length_take]
      exact min_eq_left hlen
    · intro p hp
      have hpg : p ∈ Shelf.growMatchingGroup matchCount [seed] (Shelf.validProducts products) :=
        List.take_subset _ _ hp
      have := growMatchingGroupAux_subset (Shelf.validProducts products) _ _ p hpg
      rcases this with hone | hvalid
      · rw [List.mem_singleton] at hone
        exact (validProducts_mem products p).1 (hone ▸ hseed)
      · exact (validProducts_mem products p).1 hvalid
    · apply List.Pairwise.sublist (List.take_sublist _ _)
      exact growMatchingGroupAux_pairwise (Shelf.validProducts products) _ _
        (List.pairwise_singleton _ _)
  · exact absurd heq (by simp)

/-- Seed products for the pairwise counterexample: `cexProdB`'s `matches`
list contains `"A"` but `cexProdA`'s is empty, so the match relation
between them holds in one direction only. -/
def cexProdA : Product :=
  ⟨0, "A", "Apple", [], 1, false, false, false, false, 0, 0⟩

/-- See `cexProdA`. -/
def cexProdB : Product :=
  ⟨1, "B", "Banana", ["A"], 1, false, false, false, false, 0, 0⟩

/-- Claim C1, counterexample to the claim as stated: with `matchCount = 2`
the shelf `[cexProdA, cexProdB]` reports a found match group
`[cexProdA, cexProdB]`, yet the pair does not mutually satisfy the match
relation — `cexProdA.matchesProduct cexProdB` is `false`. -/
theorem checkForMatches_pairwise_cex :
    Shelf.checkForMatches 2 [some cexProdA, some cexProdB] =
      some [cexProdA, cexProdB] ∧
    ¬ (∀ p ∈ [cexProdA, cexProdB], ∀ q ∈ [cexProdA, cexProdB],
        p ≠ q → p.matchesProduct q = true) := by
  constructor
  · decide
  · decide

/-- A mutually matching product pair used to instantiate witnesses. -/
def mutProdA : Product :=
  ⟨0, "A", "Apple", ["B"], 1, false, false, false, false, 0, 0⟩

/-- See `mutProdA`. -/
def mutProdB : Product :=
  ⟨1, "B", "Banana", ["A"], 1, false, false, false, false, 0, 0⟩

/-- Witness for `checkForMatches_group_spec` at a concrete shelf. -/
theorem checkForMatches_group_spec_witness :
    [mutProdA, mutProdB].length = 2 ∧
    (∀ p ∈ [mutProdA, mutProdB],
        some p ∈ [some mutProdA, some mutProdB] ∧ p.disappearing = false) ∧
    ([mutProdA, mutProdB]).Pairwise (fun a b => b.matchesProduct a = true) :=
  checkForMatches_group_spec 2 [some mutProdA, some mutProdB] [mutProdA, mutProdB]
    (by decide)

/-- The `data.slotCount || DEFAULT` / `data.matchCount || DEFAULT` pattern
used by every `fromData`: `undefined` and the falsy `0` both fall back to
the default. -/
def orDefault (deflt : Nat) : Option Nat → Nat
  | none => deflt
  | some 0 => deflt
  | some (n + 1) => n + 1

/-- Source `Shelf.fromData` (src/src/actors/ClosingShelf.ts lines 212-228)
composed with the `Shelf` constructor: each product id in the data is
resolved through the factory (`createProduct`, assumed total here — an
unknown id aborts level load before any shelf exists), `null` stays an
empty slot, and the optional counts fall back to the defaults.  `position`
starts at `vec2()` (the `Actor` constructor). -/
def Shelf.fromData (createProduct : String → Product)
    (productsData : List (Option String))
    (slotCountData matchCountData : Option Nat)
    (ignore : Bool) (reference : Option String) : Shelf :=
  { products := productsData.map (Option.map createProduct)
    slotCount := orDefault DEFAULT_SLOT_COUNT slotCountData
    matchCount := orDefault DEFAULT_MATCH_COUNT matchCountData
    ignore := ignore
    reference := reference
    position := ⟨0, 0⟩
    statsUpdated := false
    dropBlocked := false
    findDisabled := false }

/-- The base-class state a Supply/Locking/Disappearing wrapper constructs
for itself: `super(level, [], offset, undefined, undefined, true, undefined,
false)` — an empty products array with the default slot and match counts
(src/src/actors/SupplyShelf.ts line 46, src/src/actors/Actor.ts lines 181
and 396).  The wrapper overrides `findShelfSlot` (always invalid) and
`canDrop`/`canPickUp` (always false). -/
def wrapperBaseShelf : Shelf :=
  { products := []
    slotCount := DEFAULT_SLOT_COUNT
    matchCount := DEFAULT_MATCH_COUNT
    ignore := true
    reference := none
    position := ⟨0, 0⟩
    statsUpdated := false
    dropBlocked := true
    findDisabled := true }

/-- Source `DeepShelf` (src/unnamed/part_004, class `DeepShelf`): the base shelf
fields plus the layer stack (`peek` = last element = top layer) and the
layer-transition animation state. -/
structure DeepShelf where
  layers : List (List (Option Product))
  products : List (Option Product)
  slotCount : Nat
  matchCount : Nat
  ignore : Bool
  reference : Option String
  position : Vec2
  statsUpdated : Bool
  changingLayers : Bool
  changingLayersTime : ℚ
deriving DecidableEq, Repr

/-- The `DeepShelf` constructor: `super(level, peek(layers) ?? new
Array(slotCount).fill(null), ...)` — the live products array starts as the
top layer, or an all-`null` row when there are no layers. -/
def DeepShelf.construct (layers : List (List (Option Product)))
    (slotCount matchCount : Nat) (ignore : Bool) (reference : Option String) :
    DeepShelf :=
  { layers := layers
    products := (layers.getLast?).getD (List.replicate slotCount none)
    slotCount := slotCount
    matchCount := matchCount
    ignore := ignore
    reference := reference
    position := ⟨0, 0⟩
    statsUpdated := false
    changingLayers := false
    changingLayersTime := 0 }

/-- Source `DeepShelf.addProductAtIndex` (src/unnamed/part_004 lines 456-469):
range guard, occupancy guard, then a defensive guard against an empty layer
stack (`layers.length === 0`, here `getLast? = none`); on success the
product is written both to `products` and to the top layer
(`peek(this.layers)![index] = product`). -/
def DeepShelf.addProductAtIndex (s : DeepShelf) (index : Int) (product : Product) :
    Bool × DeepShelf :=
  if index < 0 || s.slotCount ≤ index then (false, s)
  else if s.products.get? index.toNat != some none then (false, s)
  else
    match s.layers.getLast? with
    | none => (false, s)
    | some topLayer => (true,
        { s with
          products := s.products.set index.toNat (some product)
          layers := s.layers.dropLast ++ [topLayer.set index.toNat (some product)] })

/-- Source `DeepShelf.removeProductAtIndex` (lines 471-482): range guard and
empty-stack guard return `null` before any state is touched; otherwise the
slot is cleared in both `products` and the top layer. -/
def DeepShelf.removeProductAtIndex (s : DeepShelf) (index : Int) :
    Option Product × DeepShelf :=
  if index < 0 || s.slotCount ≤ index then (none, s)
  else
    match s.layers.getLast? with
    | none => (none, s)
    | some topLayer => ((s.products.get? index.toNat).join,
        { s with
          products := s.products.set index.toNat none
          layers := s.layers.dropLast ++ [topLayer.set index.toNat none] })

/-- Claim C3, counterexample: the claim fails at construction for the
wrapper variants — the base-class state a `SupplyShelf` (equally a
`LockingShelf` or `DisappearingShelf`) constructs has `products = []` but
the defaulted `slotCount = 3`. -/
theorem wrapper_construction_cex :
    wrapperBaseShelf.products.length ≠ wrapperBaseShelf.slotCount := by
  decide

/-- Claim C3 (amended): `products.length == slotCount` holds at
construction for a base shelf exactly when the level data supplies one
products entry per (defaulted) slot, and for a `DeepShelf` when its top
layer does (or the stack is empty, where an all-`null` row of length
`slotCount` is synthesised); whenever it holds it is preserved by
`addProductAtIndex`, `removeProductAtIndex` and `lockProductAtIndex` on
base and deep shelves.  It does not hold at construction for the
Supply/Locking/Disappearing wrapper variants, whose own products array is
empty (see `wrapper_construction_cex`). -/
theorem products_length_invariant :
    (∀ (createProduct : String → Product) (productsData : List (Option String))
        (slotCountData matchCountData : Option Nat) (ignore : Bool)
        (reference : Option String),
      productsData.length = orDefault DEFAULT_SLOT_COUNT slotCountData →
      (Shelf.fromData createProduct productsData slotCountData matchCountData
          ignore reference).products.length =
        (Shelf.fromData createProduct productsData slotCountData matchCountData
          ignore reference).slotCount) ∧
    (∀ (s : Shelf) (i : Int) (p : Product),
      s.products.length = s.slotCount →
      ((s.addProductAtIndex i p).2.products.length = (s.addProductAtIndex i p).2.slotCount ∧
       (s.removeProductAtIndex i).2.products.length = (s.removeProductAtIndex i).2.slotCount ∧
       ∀ (lk : Bool), (s.lockProductAtIndex i lk).2.products.length =
          (s.lockProductAtIndex i lk).2.slotCount)) ∧
    (∀ (layers : List (List (Option Product))) (slotCount matchCount : Nat)
        (ignore : Bool) (reference : Option String),
      (∀ topLayer, layers.getLast? = some topLayer → topLayer.length = slotCount) →
      (DeepShelf.construct layers slotCount matchCount ignore reference).products.length =
        (DeepShelf.construct layers slotCount matchCount ignore reference).slotCount) ∧
    (∀ (d : DeepShelf) (i : Int) (p : Product),
      d.products.length = d.slotCount →
      ((d.addProductAtIndex i p).2.products.length = (d.addProductAtIndex i p).2.slotCount ∧
       (d.removeProductAtIndex i).2.products.length = (d.removeProductAtIndex i).2.slotCount)) := by
  refine ⟨?_, ?_, ?_, ?_⟩
  · intro createProduct productsData slotCountData matchCountData ignore reference h
    simp [Shelf.fromData, h]
  · intro s i p h
    refine ⟨?_, ?_, ?_⟩
    · unfold Shelf.addProductAtIndex
      split
      · exact h
      · split
        · exact h
        · simpa using h
    · unfold Shelf.removeProductAtIndex
      split
      · exact h
      · simpa using h
    · intro lk
      unfold Shelf.lockProductAtIndex
      split
      · exact h
      · split
        · exact h
        · simpa using h
  · intro layers slotCount matchCount ignore reference h
    unfold DeepShelf.construct
    cases hl : layers.getLast? with
    | none => simp
    | some topLayer => simpa using h topLayer hl
  · intro d i p h
    constructor
    · unfold DeepShelf.addProductAtIndex
      split
      · exact h
      · split
        · exact h
        · split
          · exact h
          · simpa using h
    · unfold DeepShelf.removeProductAtIndex
      split
      · exact h
      · split
        · exact h
        · simpa using h

/-- A small concrete base shelf used by witnesses. -/
def sampleShelf : Shelf :=
  { products := [some mutProdA, none, none]
    slotCount := 3
    matchCount := 3
    ignore := false
    reference := some "r"
    position := ⟨0, 0⟩
    statsUpdated := false
    dropBlocked := false
    findDisabled := false }

/-- A small concrete deep shelf used by witnesses. -/
def sampleDeepShelf : DeepShelf :=
  DeepShelf.construct [[some mutProdB, none], [some mutProdA, none]] 2 2 false none

/-- Witness for `products_length_invariant` at concrete shelves. -/
theorem products_length_invariant_witness :
    (Shelf.fromData (fun _ => mutProdA) [none, none, none] none none false
        none).products.length =
      (Shelf.fromData (fun _ => mutProdA) [none, none, none] none none false
        none).slotCount ∧
    (sampleShelf.addProductAtIndex 1 mutProdB).2.products.length =
      (sampleShelf.addProductAtIndex 1 mutProdB).2.slotCount ∧
    (sampleDeepShelf.addProductAtIndex 1 mutProdB).2.products.length =
      (sampleDeepShelf.addProductAtIndex 1 mutProdB).2.slotCount :=
  ⟨(products_length_invariant.1) (fun _ => mutProdA) [none, none, none] none none
      false none (by decide),
   ((products_length_invariant.2.1) sampleShelf 1 mutProdB (by decide)).1,
   ((products_length_invariant.2.2.2) sampleDeepShelf 1 mutProdB (by decide)).1⟩

/-- Claim C9: runtime rule violations are reported as boolean/optional
no-op results, never as faults: out-of-range or occupied-slot adds return
`false` and leave the shelf unchanged; out-of-range removes return `null`
and change nothing; locking an out-of-range or empty slot returns `null`
and changes nothing; and a `DeepShelf` with zero layers refuses to accept
or yield a product (`false`/`null`) without mutating state. -/
theorem runtime_violations_are_noops :
    (∀ (s : Shelf) (i : Int) (p : Product),
      (i < 0 ∨ (s.slotCount : Int) ≤ i) → s.addProductAtIndex i p = (false, s)) ∧
    (∀ (s : Shelf) (i : Int) (p : Product),
      s.products.get? i.toNat ≠ some none → s.addProductAtIndex i p = (false, s)) ∧
    (∀ (s : Shelf) (i : Int),
      (i < 0 ∨ (s.slotCount : Int) ≤ i) → s.removeProductAtIndex i = (none, s)) ∧
    (∀ (s : Shelf) (i : Int) (lk : Bool),
      ((i < 0 ∨ (s.slotCount : Int) ≤ i) ∨ (s.products.get? i.toNat).join = none) →
      s.lockProductAtIndex i lk = (none, s)) ∧
    (∀ (d : DeepShelf) (i : Int) (p : Product),
      d.layers = [] → d.addProductAtIndex i p = (false, d)) ∧
    (∀ (d : DeepShelf) (i : Int),
      d.layers = [] → d.removeProductAtIndex i = (none, d)) := by
  refine ⟨?_, ?_, ?_, ?_, ?_, ?_⟩
  · intro s i p h
    unfold Shelf.addProductAtIndex
    rw [if_pos]
    simpa using h
  · intro s i p h
    unfold Shelf.addProductAtIndex
    split
    · rfl
    · rw [if_pos]
      simpa using h
  · intro s i h
    unfold Shelf.removeProductAtIndex
    rw [if_pos]
    simpa using h
  · intro s i lk h
    unfold Shelf.lockProductAtIndex
    rcases h with h | h
    · rw [if_pos]
      simpa using h
    · split
      · rfl
      · rw [h]
  · intro d i p h
    unfold DeepShelf.addProductAtIndex
    split
    · rfl
    · split
      · rfl
      · rw [h]
        rfl
  · intro d i h
    unfold DeepShelf.removeProductAtIndex
    split
    · rfl
    · rw [h]
      rfl

/-- A deep shelf with an empty layer stack, for the C9 witness. -/
def emptyDeepShelf : DeepShelf := DeepShelf.construct [] 3 3 false none

/-- Witness for `runtime_violations_are_noops` at concrete inputs. -/
theorem runtime_violations_are_noops_witness :
    sampleShelf.addProductAtIndex 5 mutProdB = (false, sampleShelf) ∧
    sampleShelf.addProductAtIndex 0 mutProdB = (false, sampleShelf) ∧
    sampleShelf.removeProductAtIndex (-1) = (none, sampleShelf) ∧
    sampleShelf.lockProductAtIndex 1 true = (none, sampleShelf) ∧
    emptyDeepShelf.addProductAtIndex 0 mutProdB = (false, emptyDeepShelf) ∧
    emptyDeepShelf.removeProductAtIndex 0 = (none, emptyDeepShelf) :=
  ⟨runtime_violations_are_noops.1 sampleShelf 5 mutProdB (by decide),
   runtime_violations_are_noops.2.1 sampleShelf 0 mutProdB (by decide),
   runtime_violations_are_noops.2.2.1 sampleShelf (-1) (by decide),
   runtime_violations_are_noops.2.2.2.1 sampleShelf 1 true (by decide),
   runtime_violations_are_noops.2.2.2.2.1 emptyDeepShelf 0 mutProdB (by decide),
   runtime_violations_are_noops.2.2.2.2.2 emptyDeepShelf 0 (by decide)⟩

/-- The loop body of `DisplayShelf.checkForMatches` (src/unnamed/part_005
lines 140-160), iterating `this.allowed.entries()` against
`this.products[index]`: both `null` → skip the slot; both present with the
occupant matching the allowed product → collect the occupant; anything else
(including an out-of-list read, which in JS yields `undefined` and fails
both tests) → `{ found: false }` immediately.  `some group` stands for
`{ found: true, matches: group }`. -/
def DisplayShelf.checkAux (products : List (Option Product)) :
    List (Option Product) → Nat → Option (List Product)
  | [], _ => some []
  | allowedSlot :: rest, index =>
    match allowedSlot, products.get? index with
    | none, some none => DisplayShelf.checkAux products rest (index + 1)
    | some allowed, some (some occupant) =>
      if occupant.matchesProduct allowed then
        (DisplayShelf.checkAux products rest (index + 1)).map (occupant :: ·)
      else none
    | _, _ => none

/-- Source `DisplayShelf.checkForMatches()`. -/
def DisplayShelf.checkForMatches (allowed products : List (Option Product)) :
    Option (List Product) :=
  DisplayShelf.checkAux products allowed 0

/-- The per-slot condition of claim C7: the slot's allowed product and its
occupant are both empty, or both are present and the occupant matches the
allowed product. -/
def DisplayShelf.slotAgrees (allowedSlot occupantSlot : Option (Option Product)) : Prop :=
  (allowedSlot = some none ∧ occupantSlot = some none) ∨
  (∃ allowed occupant, allowedSlot = some (some allowed) ∧
    occupantSlot = some (some occupant) ∧ occupant.matchesProduct allowed = true)

theorem displayShelf_checkAux_isSome (products : List (Option Product)) :
    ∀ (allowed : List (Option Product)) (start : Nat),
      (DisplayShelf.checkAux products allowed start).isSome = true ↔
        ∀ i < allowed.length,
          DisplayShelf.slotAgrees (allowed.get? i) (products.get? (start + i)) := by
  intro allowed
  induction allowed with
  | nil =>
    intro start
    simp [DisplayShelf.checkAux]
  | cons a rest ih =>
    intro start
    have key : (DisplayShelf.checkAux products (a :: rest) start).isSome = true ↔
        (DisplayShelf.slotAgrees (some a) (products.get? start) ∧
         (DisplayShelf.checkAux products rest (start + 1)).isSome = true) := by
      rcases a with _ | allowedP
      · rcases hp : products[start]? with _ | op
        · simp [DisplayShelf.checkAux, hp, DisplayShelf.slotAgrees]
        · rcases op with _ | p
          · simp [DisplayShelf.checkAux, hp, DisplayShelf.slotAgrees]
          · simp [DisplayShelf.checkAux, hp, DisplayShelf.slotAgrees]
      · rcases hp : products[start]? with _ | op
        · simp [DisplayShelf.checkAux, hp, DisplayShelf.slotAgrees]
        · rcases op with _ | p
          · simp [DisplayShelf.checkAux, hp, DisplayShelf.slotAgrees]
          · by_cases hm : p.matchesProduct allowedP = true
            · simp [DisplayShelf.checkAux, hp, DisplayShelf.slotAgrees, hm]
            · simp [DisplayShelf.checkAux, hp, DisplayShelf.slotAgrees, hm]
    rw [key, ih (start + 1)]
    constructor
    · rintro ⟨h0, hrest⟩ i hi
      cases i with
      | zero => simpa using h0
      | succ j =>
        rw [List.length_cons, Nat.succ_lt_succ_iff] at hi
        have hj := hrest j hi
        have harith : start + 1 + j = start + (j + 1) := by omega
        rw [harith] at hj
        simpa using hj
    · intro h
      constructor
      · simpa using h 0 (by simp)
      · intro j hj
        have hstep := h (j + 1) (by rw [List.length_cons]; omega)
        have harith : start + (j + 1) = start + 1 + j := by omega
        rw [harith] at hstep
        simpa using hstep

/-- Products for the C7 display scenario: `dspProdA`/`dspProdB` match their
own ids (so a correctly placed copy satisfies its allowed slot);
`dspProdC` matches nothing relevant. -/
def dspProdA : Product :=
  ⟨10, "A", "Apple", ["A"], 1, false, false, false, false, 0, 0⟩

/-- See `dspProdA`. -/
def dspProdB : Product :=
  ⟨11, "B", "Banana", ["B"], 1, false, false, false, false, 0, 0⟩

/-- See `dspProdA`. -/
def dspProdC : Product :=
  ⟨12, "C", "Cherry", ["C"], 1, false, false, false, false, 0, 0⟩

/-- Claim C7: `DisplayShelf.checkForMatches` reports `found = true` iff
every slot index agrees (allowed and occupant both empty, or both present
with the occupant matching the allowed product); in particular
`allowed=[A,null,B]` with `products=[A,null,B]` is a match while
`products=[A,C,B]` is not (slot 1 holds a product where allowed is
`null`). -/
theorem displayShelf_checkForMatches_spec :
    (∀ (allowed products : List (Option Product)),
      (DisplayShelf.checkForMatches allowed products).isSome = true ↔
        ∀ i < allowed.length,
          DisplayShelf.slotAgrees (allowed.get? i) (products.get? i)) ∧
    (DisplayShelf.checkForMatches [some dspProdA, none, some dspProdB]
        [some dspProdA, none, some dspProdB]).isSome = true ∧
    (DisplayShelf.checkForMatches [some dspProdA, none, some dspProdB]
        [some dspProdA, some dspProdC, some dspProdB]).isSome = false := by
  refine ⟨?_, by decide, by decide⟩
  intro allowed products
  have := displayShelf_checkAux_isSome products allowed 0
  simpa [DisplayShelf.checkForMatches] using this

/-- Witness for `displayShelf_checkForMatches_spec`: the general direction
applied at the concrete scenario shelf. -/
theorem displayShelf_checkForMatches_spec_witness :
    ∀ i < ([some dspProdA, none, some dspProdB] : List (Option Product)).length,
      DisplayShelf.slotAgrees (([some dspProdA, none, some dspProdB] :
          List (Option Product)).get? i)
        (([some dspProdA, none, some dspProdB] : List (Option Product)).get? i) :=
  (displayShelf_checkForMatches_spec.1 [some dspProdA, none, some dspProdB]
      [some dspProdA, none, some dspProdB]).1
    displayShelf_checkForMatches_spec.2.1

/-- One value of the `level.stats.productMatches` record: the
representative product object plus its accumulated match total.  The record
is keyed by product id, so entries are assumed one-per-id. -/
structure MatchEntry where
  product : Product
  total : Nat
deriving DecidableEq, Repr

/-- One entry of the append-only `level.stats.productPlacements` log.  The
source stores the destination shelf object and reads `shelf.reference` at
evaluation time; since `reference` is never reassigned, the snapshot of
that field is stored here. -/
structure PlacementEntry where
  shelfReference : Option String
  slot : Int
  product : Product
deriving DecidableEq, Repr

/-- One value of the `level.stats.currentProductPlacement` record (keyed by
shelf reference): the shelf (represented by its `reference` field, the only
field the lock evaluator reads) and its current products array. -/
structure CurrentPlacement where
  shelfReference : Option String
  products : List (Option Product)
deriving DecidableEq, Repr

/-- Source `Level.stats` (src/unnamed/part_003 lines 80-143): elapsed time,
per-product match counters, total match counter, per-reference completion
flags, total completed-shelf counter, the append-only placement log and the
current-placement snapshot.  Records become association lists (`completedShelves`
keeps only the `completed` flag, the only field read). -/
structure Stats where
  time : ℚ
  productMatches : List MatchEntry
  totalMatches : Nat
  completedShelves : List (String × Bool)
  totalCompletedShelves : Nat
  productPlacements : List PlacementEntry
  currentProductPlacement : List CurrentPlacement
deriving DecidableEq, Repr

/-- The `LockingModeData` tagged union (src/src/actors/Actor.ts lines
34-65), with the optional `latch`/`inverted` flags collapsed to their JS
truthiness and the optional reference product resolved. -/
inductive LockingMode where
  | toggleTimer (time : ℚ) (initiallyLocked : Bool) (finalCountdownUnlock : Option ℚ)
  | countdownTimer (time : ℚ)
  | matchProducts (product : Option Product) (n : Nat)
  | completeShelves (n : Nat)
  | completeShelf (shelfReference : String)
  | placeProduct (shelfReference : String) (slot : Int) (latch : Bool)
      (inverted : Bool) (product : Option Product)
deriving DecidableEq, Repr

/-- Short-circuiting `Array.prototype.some` over a callback that may throw:
stops at the first `true` or the first thrown error. -/
def jsSome (f : α → Except String Bool) : List α → Except String Bool
  | [] => Except.ok false
  | x :: xs => do
    let b ← f x
    if b then Except.ok true else jsSome f xs

/-- The JS fault raised by reading `.slot` off `this.mode`, a property the
`LockingShelf` class does not have (`this.mode` evaluates to `undefined`). -/
def modeSlotFault : Except String Bool :=
  Except.error "TypeError: cannot read property slot of undefined this.mode"

/-- Source `LockingShelf.shelfIsLocked(level)` (src/src/actors/Actor.ts lines
216-297), branch by branch.  Noteworthy, traced from the source:
the `place-product` branch filters the log/snapshot with
`shelf.reference === this.locking.shelfReference && slot === this.mode.slot
&& ...` — but the class has no `mode` property, so the moment the first
conjunct holds the callback dereferences `undefined` and throws; entries
whose reference does not match short-circuit harmlessly to `false`.  In the
non-latch branch the inner `products.some` likewise throws at the first
non-`null` product of a reference-matching snapshot entry.  Also traced: in
every branch except the toggle-timer final-countdown case the function
returns the *condition-met* boolean as the `locked` result, although its
own comments say the conditions describe when to *unlock*. -/
def shelfIsLocked (locking : LockingMode) (timeLimit : Option ℚ) (stats : Stats) :
    Except String Bool :=
  match locking with
  | LockingMode.toggleTimer time initiallyLocked finalCountdownUnlock =>
    match finalCountdownUnlock, timeLimit with
    | some f, some limit =>
      if limit - stats.time ≤ f then Except.ok false
      else Except.ok
        (⌊stats.time / time + (if initiallyLocked then 0 else 0.5)⌋ % 2 == 0)
    | _, _ => Except.ok
        (⌊stats.time / time + (if initiallyLocked then 0 else 0.5)⌋ % 2 == 0)
  | LockingMode.countdownTimer time => Except.ok (decide (time < stats.time))
  | LockingMode.matchProducts product n =>
    match product with
    | some lockingProduct => Except.ok
        (stats.productMatches.any (fun entry =>
          lockingProduct.matchesProduct entry.product && decide (n ≤ entry.total)))
    | none => Except.ok (decide (n ≤ stats.totalMatches))
  | LockingMode.completeShelves n => Except.ok (decide (n ≤ stats.totalCompletedShelves))
  | LockingMode.completeShelf shelfReference =>
    Except.ok ((stats.completedShelves.lookup shelfReference).getD false)
  | LockingMode.placeProduct shelfReference _slot latch inverted _product => do
    let locked ←
      if latch then
        jsSome (fun (entry : PlacementEntry) =>
          if entry.shelfReference == some shelfReference then modeSlotFault
          else Except.ok false) stats.productPlacements
      else
        jsSome (fun (entry : CurrentPlacement) =>
          if entry.shelfReference == some shelfReference then
            jsSome (fun (slotValue : Option Product) =>
              match slotValue with
              | none => Except.ok false
              | some _ => modeSlotFault) entry.products
          else Except.ok false) stats.currentProductPlacement
    Except.ok (if inverted then !locked else locked)

/-- An empty statistics record, the state at level start. -/
def emptyStats : Stats :=
  { time := 0
    productMatches := []
    totalMatches := 0
    completedShelves := []
    totalCompletedShelves := 0
    productPlacements := []
    currentProductPlacement := [] }

/-- Claim C5 (code bug): `complete-shelves` with `n = 2`.  The code's own
comment says "Unlock when a certain number of shelves have been completed",
but `shelfIsLocked` returns `totalCompletedShelves >= n` as the *locked*
value: with two completed referenced shelves the lock evaluates LOCKED
(`ok true`), and with only one it evaluates UNLOCKED (`ok false`) — the
exact inverse of the claim. -/
theorem completeShelves_polarity_inverted :
    shelfIsLocked (LockingMode.completeShelves 2) none
        { emptyStats with totalCompletedShelves := 2 } = Except.ok true ∧
    shelfIsLocked (LockingMode.completeShelves 2) none
        { emptyStats with totalCompletedShelves := 1 } = Except.ok false := by
  constructor
  · rfl
  · rfl

/-- A placement-log entry recording that `mutProdA` was placed into slot 0
of the shelf referenced `"r"`. -/
def samplePlacement : PlacementEntry := ⟨some "r", 0, mutProdA⟩

/-- Claim C4 (code bug): `place-product` in latch mode.  Before any
qualifying placement is logged the condition evaluates `ok false`
(unlocked, by the inverted polarity); once a placement for the referenced
shelf is in the log, evaluating the condition faults on `this.mode.slot`
instead of reporting unlocked — and the non-latch variant faults the same
way as soon as the referenced shelf's snapshot holds any product. -/
theorem placeProduct_latch_faults :
    shelfIsLocked (LockingMode.placeProduct "r" 0 true false none) none
        emptyStats = Except.ok false ∧
    shelfIsLocked (LockingMode.placeProduct "r" 0 true false none) none
        { emptyStats with productPlacements := [samplePlacement] } =
      modeSlotFault ∧
    shelfIsLocked (LockingMode.placeProduct "r" 0 false false none) none
        { emptyStats with
          currentProductPlacement := [⟨some "r", [some mutProdA, none]⟩] } =
      modeSlotFault := by
  refine ⟨rfl, rfl, rfl⟩

/-- Source `level.stats.productMatches[id].total++`: bump the total of the entry
keyed by `id`.  The stats are initialised with one entry per factory
product id, so the key is present (a missing key would fault in JS). -/
def bumpProductMatch (id : String) (entries : List MatchEntry) : List MatchEntry :=
  entries.map (fun entry =>
    if entry.product.id == id then { entry with total := entry.total + 1 } else entry)

/-- Source `Shelf.update(dt, level, camera)` (src/src/actors/ClosingShelf.ts lines
238-277), the state-transition part: every slot product advances its
disappearing animation (`Product.update`'s positional easing is view
state), products that finished disappearing are removed, `checkForMatches`
runs, each member of a found group is scheduled to disappear staggered by
`index * DISAPPEAR_DELAY` (the group members are the slot objects
themselves; the value-level lookup by `findIdx?` coincides with object
identity because distinct objects differ at least in `uid`), and the stats
block runs when `statsUpdated` is clear: one `productMatches` bump plus one
`totalMatches` increment per matched product, then a `totalCompletedShelves`
increment if the shelf is now complete.  Returns the updated shelf and
stats. -/
def Shelf.update (dt : ℚ) (s : Shelf) (stats : Stats) : Shelf × Stats :=
  let productsUpdated := s.products.map (Option.map (Product.updateDisappearing dt))
  let productsCleaned := productsUpdated.map (fun slot =>
    match slot with
    | some p => if p.finishedDisappearing then none else some p
    | none => none)
  let matchResult := Shelf.checkForMatches s.matchCount productsCleaned
  let productsFinal :=
    match matchResult with
    | none => productsCleaned
    | some group => productsCleaned.map (fun slot =>
        match slot with
        | some p =>
          match group.findIdx? (fun member => member == p) with
          | some j => some (p.disappear ((j : ℚ) * DISAPPEAR_DELAY))
          | none => some p
        | none => none)
  let statsPair :=
    if s.statsUpdated then (true, stats)
    else
      let afterMatch :=
        match matchResult with
        | some group => (true,
            { stats with
              productMatches :=
                group.foldl (fun acc p => bumpProductMatch p.id acc) stats.productMatches
              totalMatches := stats.totalMatches + group.length })
        | none => (s.statsUpdated, stats)
      if productsFinal.all (fun slot => slot == none) then
        (true, { afterMatch.2 with
          totalCompletedShelves := afterMatch.2.totalCompletedShelves + 1 })
      else afterMatch
  ({ s with products := productsFinal, statsUpdated := statsPair.1 }, statsPair.2)

/-- Mutually matching products for the C8 scenario (each one's `matches`
list names the other two ids). -/
def c8ProdA : Product :=
  ⟨20, "A", "Apple", ["B", "C"], 1, false, false, false, false, 0, 0⟩

/-- See `c8ProdA`. -/
def c8ProdB : Product :=
  ⟨21, "B", "Banana", ["A", "C"], 1, false, false, false, false, 0, 0⟩

/-- See `c8ProdA`. -/
def c8ProdC : Product :=
  ⟨22, "C", "Cherry", ["A", "B"], 1, false, false, false, false, 0, 0⟩

/-- The C8 scenario shelf: `slotCount = 3`, `matchCount = 3`, the three
mutually matching products in slots 0, 1 and 2, stats not yet recorded. -/
def c8Shelf : Shelf :=
  { products := [some c8ProdA, some c8ProdB, some c8ProdC]
    slotCount := 3
    matchCount := 3
    ignore := false
    reference := none
    position := ⟨0, 0⟩
    statsUpdated := false
    dropBlocked := false
    findDisabled := false }

theorem bumpProductMatch_three (l : List MatchEntry) :
    bumpProductMatch "C" (bumpProductMatch "B" (bumpProductMatch "A" l)) =
      l.map (fun entry =>
        if entry.product.id = "A" ∨ entry.product.id = "B" ∨ entry.product.id = "C"
        then { entry with total := entry.total + 1 } else entry) := by
  unfold bumpProductMatch
  rw [List.map_map, List.map_map]
  apply List.map_congr_left
  intro e _
  by_cases hA : e.product.id = "A"
  · simp [Function.comp, hA]
  · by_cases hB : e.product.id = "B"
    · simp [Function.comp, hA, hB]
    · by_cases hC : e.product.id = "C"
      · simp [Function.comp, hA, hB, hC]
      · simp [Function.comp, hA, hB, hC]

/-- Claim C8: on the next update tick of `c8Shelf`, the match check reports
`found = true` with the full group, all three products are scheduled to
disappear staggered by `index * DISAPPEAR_DELAY`, each matched product's
per-id counter gains one, `totalMatches` gains 3 (one per matched product),
and the completed-shelf counter is untouched. -/
theorem shelf_match_tick (dt : ℚ) (stats : Stats) :
    Shelf.checkForMatches 3 [some c8ProdA, some c8ProdB, some c8ProdC] =
      some [c8ProdA, c8ProdB, c8ProdC] ∧
    (Shelf.update dt c8Shelf stats).1.products =
      [some (c8ProdA.disappear (0 * DISAPPEAR_DELAY)),
       some (c8ProdB.disappear (1 * DISAPPEAR_DELAY)),
       some (c8ProdC.disappear (2 * DISAPPEAR_DELAY))] ∧
    (Shelf.update dt c8Shelf stats).1.statsUpdated = true ∧
    (Shelf.update dt c8Shelf stats).2.totalMatches = stats.totalMatches + 3 ∧
    (Shelf.update dt c8Shelf stats).2.productMatches =
      stats.productMatches.map (fun entry =>
        if entry.product.id = "A" ∨ entry.product.id = "B" ∨ entry.product.id = "C"
        then { entry with total := entry.total + 1 } else entry) ∧
    (Shelf.update dt c8Shelf stats).2.totalCompletedShelves =
      stats.totalCompletedShelves := by
  refine ⟨by decide, rfl, rfl, rfl, ?_, rfl⟩
  show bumpProductMatch "C" (bumpProductMatch "B" (bumpProductMatch "A"
      stats.productMatches)) = _
  exact bumpProductMatch_three stats.productMatches

/-- Source `DeepShelf.CHANGING_LAYERS_ANIMATION_TIME` (0.5 seconds). -/
def CHANGING_LAYERS_ANIMATION_TIME : ℚ := 0.5

/-- Source `DeepShelf.layerIsEmpty(layer)`: every slot of the layer is `null`. -/
def DeepShelf.layerIsEmpty (layer : List (Option Product)) : Bool :=
  layer.all (fun slot => slot == none)

/-- Source `DeepShelf.shelfIsEmpty()`: every layer is empty. -/
def DeepShelf.shelfIsEmpty (d : DeepShelf) : Bool :=
  d.layers.all (fun layer => DeepShelf.layerIsEmpty layer)

/-- Source `DeepShelf.shelfIsComplete()` (src/unnamed/part_004 lines 452-454). -/
def DeepShelf.shelfIsComplete (d : DeepShelf) : Bool :=
  d.shelfIsEmpty

/-- The base-class (`Shelf`) view of a deep shelf, on which `super.update`
operates. -/
def DeepShelf.toShelf (d : DeepShelf) : Shelf :=
  { products := d.products
    slotCount := d.slotCount
    matchCount := d.matchCount
    ignore := d.ignore
    reference := d.reference
    position := d.position
    statsUpdated := d.statsUpdated
    dropBlocked := false
    findDisabled := false }

/-- The finished-product sweep `DeepShelf.update` performs over each layer
(src/unnamed/part_004 lines 408-415). -/
def DeepShelf.sweepLayer (layer : List (Option Product)) : List (Option Product) :=
  layer.map (fun slot =>
    match slot with
    | some p => if p.finishedDisappearing then none else some p
    | none => none)

/-- Source `DeepShelf.update(dt, level, camera)` (src/unnamed/part_004 lines
391-442): `super.update` runs the base pipeline on the live products array;
lower layers only get repositioned (view state); the finished-product sweep
runs over every layer — the top layer aliases the live products array's
objects, so at value level the swept top layer is exactly the base result's
products (lower layers are swept in place); when the (swept) top layer is
empty and no transition is running, one starts; the transition timer
decrements; at its end the top layer is popped UNLESS it is the only layer,
the live products array is rebound to the new top layer (or an all-`null`
row if there are no layers), and `statsUpdated` is cleared. -/
def DeepShelf.update (dt : ℚ) (d : DeepShelf) (stats : Stats) : DeepShelf × Stats :=
  let baseResult := Shelf.update dt d.toShelf stats
  let base := baseResult.1
  let layersSwept :=
    if d.layers.isEmpty then []
    else (d.layers.dropLast.map DeepShelf.sweepLayer) ++ [base.products]
  let trigger :=
    match layersSwept.getLast? with
    | some currentLayer => DeepShelf.layerIsEmpty currentLayer && !d.changingLayers
    | none => false
  let changing₁ := if trigger then true else d.changingLayers
  let time₁ := if trigger then CHANGING_LAYERS_ANIMATION_TIME else d.changingLayersTime
  let time₂ := clamp (time₁ - dt) 0 CHANGING_LAYERS_ANIMATION_TIME
  let popNow := changing₁ && decide (time₂ ≤ 0)
  let layersNext :=
    if popNow then (if 1 < layersSwept.length then layersSwept.dropLast else layersSwept)
    else layersSwept
  ({ d with
      layers := layersNext
      products :=
        if popNow then (layersNext.getLast?).getD (List.replicate d.slotCount none)
        else base.products
      changingLayers := if popNow then false else changing₁
      changingLayersTime := time₂
      statsUpdated := if popNow then false else base.statsUpdated }, baseResult.2)

/-- A sequence of update ticks applied to a deep shelf. -/
def DeepShelf.run (dts : List ℚ) (d : DeepShelf) (stats : Stats) :
    DeepShelf × Stats :=
  dts.foldl (fun acc dt => DeepShelf.update dt acc.1 acc.2) (d, stats)

theorem ite_ne_of_branches (c : Prop) [Decidable c] {α : Sort u} {x y z : α}
    (hx : c → x ≠ z) (hy : ¬c → y ≠ z) : ite c x y ≠ z := by
  by_cases h : c
  · rw [if_pos h]; exact hx h
  · rw [if_neg h]; exact hy h

theorem deepShelf_update_layers_ne (dt : ℚ) (d : DeepShelf) (stats : Stats)
    (h : d.layers ≠ []) : (DeepShelf.update dt d stats).1.layers ≠ [] := by
  have hne : d.layers.isEmpty = false := by
    cases hl : d.layers with
    | nil => exact absurd hl h
    | cons a t => rfl
  unfold DeepShelf.update
  simp only [hne, Bool.false_eq_true, if_false]
  set layersSwept := (d.layers.dropLast.map DeepShelf.sweepLayer) ++
    [(Shelf.update dt d.toShelf stats).1.products] with hswept
  have hsne : layersSwept ≠ [] := by
    rw [hswept]
    exact List.append_ne_nil_of_right_ne_nil _ (by simp)
  apply ite_ne_of_branches
  · intro _
    apply ite_ne_of_branches
    · intro hlen hcontra
      have hlc := congrArg List.length hcontra
      rw [List.length_dropLast] at hlc
      simp only [List.length_nil] at hlc
      omega
    · intro _
      exact hsne
  · intro _
    exact hsne

/-- Claim C6: a `DeepShelf` never drops below one layer: across any
sequence of update ticks the layer stack stays nonempty — the pop step
removes the top layer only when more than one remains — so the shelf always
exposes a usable (non-null) current top layer; and the shelf reports
complete exactly when every slot of every layer is empty. -/
theorem deepShelf_layers_invariant :
    (∀ (dts : List ℚ) (d : DeepShelf) (stats : Stats), d.layers ≠ [] →
      (DeepShelf.run dts d stats).1.layers ≠ [] ∧
      ((DeepShelf.run dts d stats).1.layers.getLast?).isSome = true) ∧
    (∀ d : DeepShelf, d.shelfIsComplete = true ↔
      ∀ layer ∈ d.layers, ∀ slot ∈ layer, slot = none) := by
  constructor
  · intro dts
    induction dts with
    | nil =>
      intro d stats h
      refine ⟨h, ?_⟩
      rw [Option.isSome_iff_ne_none]
      intro hcontra
      rw [List.getLast?_eq_none_iff] at hcontra
      exact h hcontra
    | cons dt rest ih =>
      intro d stats h
      have hstep := deepShelf_update_layers_ne dt d stats h
      have hrest := ih (DeepShelf.update dt d stats).1 (DeepShelf.update dt d stats).2 hstep
      simpa [DeepShelf.run, List.foldl_cons] using hrest
  · intro d
    simp [DeepShelf.shelfIsComplete, DeepShelf.shelfIsEmpty, DeepShelf.layerIsEmpty,
      List.all_eq_true, beq_iff_eq]

/-- A two-layer deep shelf (empty top layer, occupied lower layer) the C6
witness runs one tick on. -/
def c6DeepShelf : DeepShelf := DeepShelf.construct [[some mutProdA], [none]] 1 1 false none

/-- Witness for `deepShelf_layers_invariant` at a concrete deep shelf and
tick sequence. -/
theorem deepShelf_layers_invariant_witness :
    (DeepShelf.run [1] c6DeepShelf emptyStats).1.layers ≠ [] ∧
    ((DeepShelf.run [1] c6DeepShelf emptyStats).1.layers.getLast?).isSome = true :=
  deepShelf_layers_invariant.1 [1] c6DeepShelf emptyStats (by decide)

/-- Source `Shelf.getAABB(index)` (src/src/actors/ClosingShelf.ts lines 406-418),
slot form: the slot box sits `index` product widths right of the shelf
position.  `Product.calculateSize()` depends only on the screen size, so it
is a single `productSize` parameter here. -/
def Shelf.getAABBslot (productSize : Vec2) (s : Shelf) (index : Nat) : AABB :=
  { position := ⟨s.position.x + productSize.x * index, s.position.y⟩
    size := productSize }

/-- Modelled from the spec: `aabbsOverlap` lives in the external
`@basementuniverse/intersection-helpers` package (not part of this
repository); per the spec, "axis-aligned bounding boxes of product and slot
must intersect" — the boxes' extents overlap on both axes. -/
def aabbsOverlap (a b : AABB) : Bool :=
  decide (a.position.x ≤ b.position.x + b.size.x) &&
  decide (b.position.x ≤ a.position.x + a.size.x) &&
  decide (a.position.y ≤ b.position.y + b.size.y) &&
  decide (b.position.y ≤ a.position.y + a.size.y)

/-- The center of an AABB (`position + size / 2`). -/
def AABB.center (a : AABB) : Vec2 :=
  ⟨a.position.x + a.size.x / 2, a.position.y + a.size.y / 2⟩

/-- Modelled from the spec: the external `distance` helper is the Euclidean
center-to-center distance, used by the source only as a sort key; the
embedding uses the squared distance, which is order-equivalent (squaring is
monotone on nonnegative reals) and stays in exact rational arithmetic. -/
def distanceSq (a b : Vec2) : ℚ :=
  (a.x - b.x) * (a.x - b.x) + (a.y - b.y) * (a.y - b.y)

/-- Embedding of `.sort((a, b) => a.key - b.key)[0]` for JS's stable sort: the first
element attaining the minimal key (`none` on an empty candidate list, the
source's `undefined`). -/
def minByKey (key : α → ℚ) : List α → Option α
  | [] => none
  | x :: xs => some (xs.foldl (fun best y => if key y < key best then y else best) x)

/-- Source `Shelf.findShelfSlot(product)` (src/src/actors/ClosingShelf.ts lines
279-315): enumerate the slot indices, keep those where the product can be
dropped, keep those whose box overlaps the product's box, and take the
nearest by center-to-center distance; `some (slotIndex, distance)` stands
for `{ valid: true, slotIndex, distance }` (the result's `product` field is
never read by the placement logic) and `none` for `{ valid: false }`.  The
Supply/Locking/Disappearing wrappers override the method to always report
invalid (`findDisabled`). -/
def Shelf.findShelfSlot (productSize : Vec2) (s : Shelf) (product : Product)
    (productAABB : AABB) : Option (Nat × ℚ) :=
  if s.findDisabled then none
  else
    let overlapping := ((List.range s.slotCount).filter
        (fun index => s.canDropProductAtIndex product (Int.ofNat index))).filter
      (fun index => aabbsOverlap productAABB (Shelf.getAABBslot productSize s index))
    (minByKey (fun index =>
        distanceSq (Shelf.getAABBslot productSize s index).center productAABB.center)
      overlapping).map (fun index =>
        (index, distanceSq (Shelf.getAABBslot productSize s index).center
          productAABB.center))

/-- Source `Level` (src/unnamed/part_003): the shelf list, the in-flight drag (the
origin shelf is identified by its index into `shelves`, standing for the JS
object reference) and the stats.  The `actors` list, grid geometry and
input handling are external collaborators. -/
structure Level where
  shelves : List Shelf
  draggingProduct : Option (Nat × Int × Product)
  stats : Stats
deriving Repr

/-- Update one position of a list (the JS mutation `shelves[i].foo = ...`
applied through an object reference): a no-op out of range. -/
def listModify (l : List α) (i : Nat) (f : α → α) : List α :=
  match l.get? i with
  | some x => l.set i (f x)
  | none => l

/-- The candidate-collection loop of `Level.isValidDropPosition`
(src/unnamed/part_003 lines 348-356): every shelf reporting a valid slot
contributes `(shelfIndex, slotIndex, distance)`, in shelf order. -/
def Level.collectDropResults (productSize : Vec2) (product : Product)
    (productAABB : AABB) : Nat → List Shelf → List (Nat × Nat × ℚ)
  | _, [] => []
  | i, s :: rest =>
    (match Shelf.findShelfSlot productSize s product productAABB with
     | some (slotIndex, dist) => [(i, slotIndex, dist)]
     | none => []) ++
    Level.collectDropResults productSize product productAABB (i + 1) rest

/-- Source `Level.isValidDropPosition(product)` (src/unnamed/part_003 lines
339-374): collect each shelf's nearest valid slot, sort by distance, take
the head — i.e. the first candidate of globally minimal distance. -/
def Level.isValidDropPosition (productSize : Vec2) (shelves : List Shelf)
    (product : Product) (productAABB : AABB) : Option (Nat × Nat) :=
  (minByKey (fun r => r.2.2)
    (Level.collectDropResults productSize product productAABB 0 shelves)).map
    (fun r => (r.1, r.2.1))

/-- Source `Level.finishDraggingProduct()` (src/unnamed/part_003 lines 310-337):
nothing happens without an in-flight drag; with one, an invalid drop
position leaves every shelf untouched, while a valid one removes the
product from the origin shelf's slot, adds it to the winning shelf's slot,
and — when the destination shelf carries a `reference` — appends one entry
to the placement log.  (The source also clears the product's `dragging`
view flag, which is not modelled.) -/
def Level.finishDraggingProduct (productSize : Vec2) (productAABB : AABB)
    (lv : Level) : Level :=
  match lv.draggingProduct with
  | none => lv
  | some (originIndex, slotIndex, product) =>
    match Level.isValidDropPosition productSize lv.shelves product productAABB with
    | some (destIndex, destSlotIndex) =>
      let shelvesRemoved := listModify lv.shelves originIndex
        (fun s => (s.removeProductAtIndex slotIndex).2)
      let shelvesAdded := listModify shelvesRemoved destIndex
        (fun s => (s.addProductAtIndex (Int.ofNat destSlotIndex) product).2)
      let destReference := ((shelvesAdded.get? destIndex).map Shelf.reference).join
      let statsNext :=
        if destReference.isSome then
          { lv.stats with
            productPlacements := lv.stats.productPlacements ++
              [⟨destReference, Int.ofNat destSlotIndex, product⟩] }
        else lv.stats
      { shelves := shelvesAdded, draggingProduct := none, stats := statsNext }
    | none => { lv with draggingProduct := none }

theorem listModify_get?_ne (l : List α) (i j : Nat) (f : α → α) (h : j ≠ i) :
    (listModify l i f).get? j = l.get? j := by
  unfold listModify
  cases hx : l.get? i with
  | none => rfl
  | some x => exact List.get?_set_ne _ l (Ne.symm h)

theorem collectDropResults_eq_nil (productSize : Vec2) (product : Product)
    (productAABB : AABB) (shelves : List Shelf)
    (h : ∀ s ∈ shelves, Shelf.findShelfSlot productSize s product productAABB = none) :
    ∀ i, Level.collectDropResults productSize product productAABB i shelves = [] := by
  induction shelves with
  | nil => intro i; rfl
  | cons s rest ih =>
    intro i
    rw [Level.collectDropResults]
    rw [h s (List.mem_cons_self _ _)]
    rw [ih (fun t ht => h t (List.mem_cons_of_mem _ ht)) (i + 1)]
    rfl

/-- Claim C2: on a drag release, if no shelf reports a capability-eligible,
geometrically overlapping slot then no shelf is mutated (the dragged
product's shelf/slot membership is untouched); if a valid destination
exists then the final shelf list is exactly the origin shelf after one
`removeProductAtIndex` and the destination shelf after one
`addProductAtIndex`, and every other shelf is unchanged. -/
theorem finishDragging_frame (productSize : Vec2) (productAABB : AABB) (lv : Level)
    (originIndex : Nat) (slotIndex : Int) (product : Product)
    (hdrag : lv.draggingProduct = some (originIndex, slotIndex, product)) :
    ((∀ s ∈ lv.shelves,
        Shelf.findShelfSlot productSize s product productAABB = none) →
      (Level.finishDraggingProduct productSize productAABB lv).shelves = lv.shelves) ∧
    (∀ destIndex destSlotIndex,
      Level.isValidDropPosition productSize lv.shelves product productAABB =
        some (destIndex, destSlotIndex) →
      ((Level.finishDraggingProduct productSize productAABB lv).shelves =
        listModify (listModify lv.shelves originIndex
            (fun s => (s.removeProductAtIndex slotIndex).2)) destIndex
          (fun s => (s.addProductAtIndex (Int.ofNat destSlotIndex) product).2)) ∧
      (∀ j, j ≠ originIndex → j ≠ destIndex →
        (Level.finishDraggingProduct productSize productAABB lv).shelves.get? j =
          lv.shelves.get? j)) := by
  constructor
  · intro h
    have hnone : Level.isValidDropPosition productSize lv.shelves product productAABB =
        none := by
      unfold Level.isValidDropPosition
      rw [collectDropResults_eq_nil productSize product productAABB lv.shelves h 0]
      rfl
    unfold Level.finishDraggingProduct
    rw [hdrag]
    simp only [hnone]
  · intro destIndex destSlotIndex hsome
    have hdef : (Level.finishDraggingProduct productSize productAABB lv).shelves =
        listModify (listModify lv.shelves originIndex
            (fun s => (s.removeProductAtIndex slotIndex).2)) destIndex
          (fun s => (s.addProductAtIndex (Int.ofNat destSlotIndex) product).2) := by
      unfold Level.finishDraggingProduct
      rw [hdrag]
      simp only [hsome]
    refine ⟨hdef, ?_⟩
    intro j hjo hjd
    rw [hdef, listModify_get?_ne _ _ _ _ hjd, listModify_get?_ne _ _ _ _ hjo]

/-- Product being dragged in the C2 witness scenario. -/
def c2Product : Product :=
  ⟨30, "P", "Pear", [], 1, false, false, false, false, 0, 0⟩

/-- A two-slot shelf whose slot 0 holds the dragged product. -/
def c2Shelf : Shelf :=
  { products := [some c2Product, none]
    slotCount := 2
    matchCount := 3
    ignore := false
    reference := some "w"
    position := ⟨0, 0⟩
    statsUpdated := false
    dropBlocked := false
    findDisabled := false }

/-- Witness level: the drag originates from shelf 0 slot 0. -/
def c2Level : Level :=
  { shelves := [c2Shelf]
    draggingProduct := some (0, 0, c2Product)
    stats := emptyStats }

/-- Witness product size. -/
def c2ProductSize : Vec2 := ⟨10, 15⟩

/-- Witness drag-release box: directly over slot 1 of `c2Shelf`. -/
def c2AABB : AABB := { position := ⟨10, 0⟩, size := ⟨10, 15⟩ }

/-- Witness for `finishDragging_frame`: releasing over the empty slot 1
performs exactly the remove-then-add pair on the (shared) origin and
destination shelf. -/
theorem finishDragging_frame_witness :
    (Level.finishDraggingProduct c2ProductSize c2AABB c2Level).shelves =
      listModify (listModify c2Level.shelves 0
          (fun s => (s.removeProductAtIndex 0).2)) 0
        (fun s => (s.addProductAtIndex (Int.ofNat 1) c2Product).2) :=
  ((finishDragging_frame c2ProductSize c2AABB c2Level 0 0 c2Product rfl).2
    0 1 (by
      norm_num [Level.isValidDropPosition, Level.collectDropResults, Shelf.findShelfSlot,
        minByKey, aabbsOverlap, AABB.center, distanceSq, Shelf.getAABBslot,
        Shelf.canDropProductAtIndex, c2Level, c2Shelf, c2Product, c2ProductSize, c2AABB,
        List.range_succ, List.filter])).1

/-- Claim C10: `Product.disappear` is idempotent — once a product is
disappearing, a second call (with any delay argument) changes nothing:
neither the timer, nor the delay, nor the started/finished flags. -/
theorem disappear_idempotent (p : Product) (d₁ d₂ : ℚ) :
    Product.disappear (Product.disappear p d₁) d₂ = Product.disappear p d₁ := by
  unfold Product.disappear
  by_cases h : p.disappearing = true
  · simp [h]
  · simp at h
    simp [h]

end GoodsSort
